import Mathlib

/-!
# Tracker-Component-Library: `Ais14::Ais14` and the `getNextCombo` MEX gateway

A shallow embedding of

* `3rd_Party_Code/libais/ais14.cpp` : the constructor body of `Ais14`
  (safety related broadcast message), and
* `Mathematical Functions/Combinatorics/getNextCombo.cpp` : `mexFunction`.

Machine integers are integers with explicit reduction modulo `2 ^ w`.
`size_t` / `ptrdiff_t` have `size_bits` bits and `int` has `int_bits` bits;
both widths are parameters of the embedding (`Platform`).
-/

set_option linter.dupNamespace false
set_option maxRecDepth 20000

namespace TCL

/-! ## Machine words -/

/-- Word widths of the target: `size_t` and `ptrdiff_t` have `size_bits` bits, `int` has
`int_bits` bits.  The C standard guarantees at least 16 bits for each. -/
structure Platform where
  size_bits : Nat
  int_bits : Nat
  size_ok : 16 ≤ size_bits
  int_ok : 16 ≤ int_bits

/-- The usual 64-bit target: 64-bit `size_t` / `ptrdiff_t`, 32-bit `int`. -/
def LP64 : Platform := ⟨64, 32, by decide, by decide⟩

/-- The modulus `2 ^ w` of a `w`-bit word. -/
def wordMod (w : Nat) : Int := ((2 ^ w : Nat) : Int)

/-- Half of the modulus, `2 ^ (w - 1)`: the first value that is negative when read as a
two's complement `w`-bit word. -/
def halfMod (w : Nat) : Int := ((2 ^ (w - 1) : Nat) : Int)

/-- Reduction of an exact integer to an unsigned `w`-bit word (the result of unsigned
arithmetic and of a conversion to an unsigned type). -/
def toUnsigned (w : Nat) (x : Int) : Int := x % wordMod w

/-- Conversion of an integer to a signed `w`-bit word (two's complement). -/
def toSigned (w : Nat) (x : Int) : Int :=
  if toUnsigned w x < halfMod w then toUnsigned w x else toUnsigned w x - wordMod w

/-- An exact integer is representable as a signed `w`-bit word. -/
def Representable (w : Nat) (x : Int) : Prop := -halfMod w ≤ x ∧ x < halfMod w

instance (w : Nat) (x : Int) : Decidable (Representable w x) := by
  unfold Representable; infer_instance

/-! ## `ais14.cpp` -/

/-- Modelled from the spec: the enumeration `AIS_STATUS` is declared in `ais.h`, which is not
part of the sources.  `ais14.cpp` names three enumerators; every further enumerator of the
header (the converter's error statuses) is `AIS_ERR_OTHER code`. -/
inductive AIS_STATUS where
  | AIS_UNINITIALIZED
  | AIS_OK
  | AIS_ERR_BAD_BIT_COUNT
  | AIS_ERR_OTHER (code : Nat)
  deriving DecidableEq, Repr

open AIS_STATUS

/-- The bits of a `bitset<1008>`, index 0 first. -/
abbrev Bitset := List Bool

/-- Capacity of the bit buffer declared in the constructor, `bitset<1008> bs`. -/
def bitset_capacity : Nat := 1008

/-- A default-constructed `bitset<1008>`: all bits zero. -/
def bitset_zero : Bitset := List.replicate bitset_capacity false

/-- The members of an `Ais14` object that the constructor body reads or writes.
`message_id` and `status` are inherited from `AisMsg`. -/
structure Ais14 where
  message_id : Int
  status : AIS_STATUS
  spare : Int
  text : String
  expected_num_spare_bits : Int
  deriving DecidableEq, Repr

/-- What the constructor body does besides writing members: the assertion it evaluates and
the helper calls it makes, in program order. -/
inductive Event where
  | assert_message_id (holds : Bool)
  | call_aivdm_to_bits (nmea_payload : List Char)
  | call_ubits (start len : Nat)
  | call_ais_str (start len : Nat)
  deriving DecidableEq, Repr

/-- How the constructor body ends: it returns, leaving the object `m`, or `assert` aborts. -/
inductive Outcome where
  | returned (m : Ais14)
  | assertion_failed
  deriving DecidableEq, Repr

/-- One run of the constructor body. -/
structure Run where
  outcome : Outcome
  trace : List Event
  deriving DecidableEq, Repr

/-- Everything `ais14.cpp` uses without defining it: the platform, whether `assert` is
compiled out (`NDEBUG`), and the helpers `aivdm_to_bits`, `ubits` and `ais_str` of `ais.h`.
`aivdm_to_bits` receives the buffer by reference and returns its status; here it returns
the status together with the buffer it leaves. -/
structure Env where
  plat : Platform
  NDEBUG : Bool
  aivdm_to_bits : Bitset → List Char → AIS_STATUS × Bitset
  ubits : Bitset → Nat → Nat → Int
  ais_str : Bitset → Nat → Nat → String

/-- `strlen` of a NUL-terminated string whose characters before the terminator are `s`. -/
def strlen (s : List Char) : Nat := s.length

/-- Line 12: `const ptrdiff_t num_bits = strlen(nmea_payload) * 6 - pad;`.
The product and the difference are `size_t` arithmetic; the result is converted to
`ptrdiff_t`. -/
def num_bits (w : Nat) (nmea_payload : List Char) (pad : Nat) : Int :=
  toSigned w (toUnsigned w (toUnsigned w ((strlen nmea_payload : Int) * 6) - (pad : Int)))

/-- The exact integer `6 * strlen(nmea_payload) - pad` that the claims about the length check
speak of, to be compared with `num_bits`, the value line 12 computes in machine words. -/
def spec_num_bits (nmea_payload : List Char) (pad : Nat) : Int :=
  6 * (strlen nmea_payload : Int) - (pad : Int)

/-- Line 10, `assert(message_id == 14);`, when it holds: one evaluation, or nothing at all
when the assertion is compiled out. -/
def assert_trace (env : Env) : List Event :=
  if env.NDEBUG then [] else [.assert_message_id true]

/-- Line 27: `const ptrdiff_t num_char = (num_bits - 40) / 6;` (C division truncates). -/
def num_char (nb : Int) : Int := (nb - 40).tdiv 6

/-- The constructor body of `Ais14::Ais14(const char *nmea_payload, const size_t pad)`,
lines 7 to 32, run on the object `e` that the base constructor `AisMsg(nmea_payload, pad)`
leaves.  Signed `ptrdiff_t` arithmetic after the length check is exact: with
`46 ≤ num_bits ≤ 1008` no intermediate value exceeds 9660 in magnitude. -/
def Ais14.Ais14 (env : Env) (e : Ais14) (nmea_payload : List Char) (pad : Nat) : Run :=
  if e.status ≠ AIS_UNINITIALIZED then
    ⟨.returned e, []⟩
  else if env.NDEBUG = false ∧ e.message_id ≠ 14 then
    ⟨.assertion_failed, [.assert_message_id false]⟩
  else
    let t0 := assert_trace env
    let nb := num_bits env.plat.size_bits nmea_payload pad
    if nb < 46 ∨ nb > 1008 then
      ⟨.returned { e with status := AIS_ERR_BAD_BIT_COUNT }, t0⟩
    else
      let rb := env.aivdm_to_bits bitset_zero nmea_payload
      let t1 := t0 ++ [.call_aivdm_to_bits nmea_payload]
      if rb.1 ≠ AIS_OK then
        ⟨.returned { e with status := rb.1 }, t1⟩
      else
        let bs := rb.2
        let spare := env.ubits bs 38 2
        let nc := num_char nb
        let len := (toUnsigned env.plat.size_bits (nc * 6)).toNat
        let text := env.ais_str bs 40 len
        let spare_bits := toSigned env.plat.int_bits (nb - 40 - nc * 60)
        ⟨.returned { e with spare := spare, text := text,
                            expected_num_spare_bits := spare_bits, status := AIS_OK },
         t1 ++ [.call_ubits 38 2, .call_ais_str 40 len]⟩

/-- The final status of a run, when the constructor returns. -/
def Run.final_status (r : Run) : Option AIS_STATUS :=
  match r.outcome with
  | .returned m => some m.status
  | .assertion_failed => none

/-- The bit range a helper call touches lies inside the buffer and inside the first
`populated` bits; for the converter: the bits it writes fit the buffer. -/
def Event.in_bounds (populated : Int) : Event → Prop
  | .assert_message_id _ => True
  | .call_aivdm_to_bits q => 6 * strlen q ≤ bitset_capacity
  | .call_ubits start len => ((start + len : Nat) : Int) ≤ populated ∧ start + len ≤ bitset_capacity
  | .call_ais_str start len => ((start + len : Nat) : Int) ≤ populated ∧ start + len ≤ bitset_capacity

instance (populated : Int) (ev : Event) : Decidable (ev.in_bounds populated) := by
  cases ev <;> unfold Event.in_bounds <;> infer_instance

/-! ### A concrete environment

The helpers of `ais.h` are parameters of every theorem below.  To run the constructor on
concrete payloads they are instantiated with the following definitions. -/

/-- Modelled from the spec: the 6-bit value of a payload character of the armoring alphabet
(used by `aivdm_to_bits` of `ais.cpp`, not part of the sources); `none` for a character
outside the alphabet.  The spec does not list the alphabet; this is the usual AIVDM armoring,
characters 48 to 87 and 96 to 119. -/
def armor_value (c : Char) : Option Nat :=
  let k := c.toNat
  if k < 48 ∨ k > 119 ∨ (88 ≤ k ∧ k ≤ 95) then none
  else if k - 48 > 40 then some (k - 48 - 8) else some (k - 48)

/-- The six bits of a value below 64, most significant first. -/
def six_bits (v : Nat) : List Bool :=
  [decide (v / 32 % 2 = 1), decide (v / 16 % 2 = 1), decide (v / 8 % 2 = 1),
   decide (v / 4 % 2 = 1), decide (v / 2 % 2 = 1), decide (v % 2 = 1)]

/-- Modelled from the spec: the sentence-to-bits converter `aivdm_to_bits` of `ais.cpp`, not
part of the sources (section 4.2): six bits per payload character written from bit 0 on, or
an error status, distinct from `AIS_ERR_BAD_BIT_COUNT`, when a character is outside the
alphabet. -/
def sample_aivdm_to_bits (bs : Bitset) (nmea_payload : List Char) : AIS_STATUS × Bitset :=
  match nmea_payload.mapM armor_value with
  | none => (AIS_ERR_OTHER 1, bs)
  | some vs =>
    let written := (vs.map six_bits).flatten
    (AIS_OK, (written ++ bs.drop written.length).take bitset_capacity)

/-- Modelled from the spec: the bit accessor `ubits` of `ais.cpp`, not part of the sources
(section 4.1): the `len`-bit unsigned value starting at bit `start`, most significant bit
first. -/
def sample_ubits (bs : Bitset) (start len : Nat) : Int :=
  ((bs.drop start).take len).foldl (fun acc b => 2 * acc + (if b then 1 else 0)) 0

/-- The character of a 6-bit value: 0 to 31 are `@` to `_`, 32 to 63 are space to `?`. -/
def ascii6 (v : Nat) : Char := if v < 32 then Char.ofNat (v + 64) else Char.ofNat v

/-- Modelled from the spec: the text accessor `ais_str` of `ais.cpp`, not part of the sources
(section 4.1): the bit range read as 6-bit groups, each mapped to its character, with
trailing `@` filler removed. -/
def sample_ais_str (bs : Bitset) (start len : Nat) : String :=
  let chars := (List.range (len / 6)).map
    (fun i => ascii6 (sample_ubits bs (start + 6 * i) 6).toNat)
  String.mk (chars.reverse.dropWhile (fun c => c == '@')).reverse

/-- The 64-bit target with assertions active and the helpers above. -/
def sampleEnv : Env :=
  { plat := LP64, NDEBUG := false, aivdm_to_bits := sample_aivdm_to_bits,
    ubits := sample_ubits, ais_str := sample_ais_str }

/-- The object a base constructor leaves for a type 14 message it accepted; the members of
`Ais14` itself are not yet written (here: zero and the empty string). -/
def entry14 : Ais14 :=
  { message_id := 14, status := AIS_UNINITIALIZED, spare := 0, text := "",
    expected_num_spare_bits := 0 }

/-- An 8-character type 14 payload (48 bits). -/
def payload8 : List Char := ['>', '5', '?', 'P', 'e', 'r', '1', '8']

/-- A 7-character payload (42 bits). -/
def payload7 : List Char := ['>', '5', '?', 'P', 'e', 'r', '1']

/-- A 23-character type 14 payload (138 bits) carrying the text `RCVD YR TEST MSG`. -/
def payload23 : List Char :=
  ['>', '5', '?', 'P', 'e', 'r', '1', '8', '=', 'H', 'B', '1', 'U', ':', '1', '@', 'E', '=',
   'B', '0', 'm', '<', 'L']

/-- The largest `size_t` value of the 64-bit target, `SIZE_MAX = 2 ^ 64 - 1`. -/
def SIZE_MAX64 : Nat := 18446744073709551615

/-- A 168-character type 14 payload (1008 bits), as many bits as the buffer holds. -/
def payload168 : List Char := '>' :: List.replicate 167 '0'

/-- The 8-character payload with its last character replaced by `Z`, which is outside the
armoring alphabet. -/
def payload8_bad : List Char := ['>', '5', '?', 'P', 'e', 'r', '1', 'Z']

/-- An object entered with `AIS_UNINITIALIZED` whose type id is 5, not 14. -/
def entry5 : Ais14 := { entry14 with message_id := 5 }

/-- An object the base constructor has already rejected. -/
def entry_rejected : Ais14 :=
  { message_id := 5, status := AIS_ERR_BAD_BIT_COUNT, spare := 7, text := "X",
    expected_num_spare_bits := 3 }

/-- A 169-character payload (1014 bits), one character more than the buffer holds. -/
def payload169 : List Char := List.replicate 169 '0'

/-! ## `getNextCombo.cpp` -/

/-- Lines 66 to 74: the maximum element of `I`, starting from `maxEl = 0`. -/
def maxEl (I : List Nat) : Nat :=
  I.foldl (fun m x => if m < x then x else m) 0

/-- The value `mexFunction` leaves in `plhs[0]`. -/
inductive MxOut where
  | empty_matrix
  | column (I : List Nat)
  deriving DecidableEq, Repr

/-- The gateway `mexFunction` of `getNextCombo.cpp`.  `n` and `I` are the values that
`getSizeTFromMatlab(prhs[1])` and `copySizeTArrayFromMatlab(prhs[0],&r)` deliver (both are
`size_t`, `w` bits wide), `r` is the length of `I`; `getNextComboCPP` (declared in
`getNextComboCPP.hpp`, not part of the sources) is a parameter returning its boolean result
and the array it leaves.  `mexErrMsgTxt` ends the call with the given message. -/
def mexFunction (w : Nat) (getNextComboCPP : List Nat → Nat → Nat → Bool × List Nat)
    (nlhs nrhs : Int) (I : List Nat) (n : Nat) : Except String MxOut :=
  if nrhs < 2 then .error "Not enough inputs."
  else if nrhs > 2 then .error "Too many inputs."
  else if nlhs > 1 then .error "Too many outputs."
  else
    let r := I.length
    if (maxEl I : Int) > toUnsigned w ((n : Int) - 1) ∨ r > n ∨ r < 1 then
      .error "The I vector is invalid."
    else
      let res := getNextComboCPP I n r
      if res.1 = true then .ok .empty_matrix else .ok (.column res.2)

/-- A stand-in for `getNextComboCPP` used to run the gateway on concrete inputs: it reports
that the final combination was passed. -/
def sample_getNextComboCPP (I : List Nat) (_n _r : Nat) : Bool × List Nat := (true, I)

/-! ## Machine-word lemmas -/

theorem wordMod_pos (w : Nat) : 0 < wordMod w := by
  unfold wordMod
  exact_mod_cast Nat.pos_pow_of_pos w (by decide)

theorem wordMod_eq_two_mul_halfMod {w : Nat} (hw : 1 ≤ w) : wordMod w = 2 * halfMod w := by
  unfold wordMod halfMod
  obtain ⟨k, rfl⟩ : ∃ k, w = k + 1 := ⟨w - 1, by omega⟩
  simp only [Nat.add_sub_cancel]
  push_cast
  ring

theorem halfMod_ge {w : Nat} (hw : 16 ≤ w) : 32768 ≤ halfMod w := by
  unfold halfMod
  have h : 2 ^ 15 ≤ 2 ^ (w - 1) := Nat.pow_le_pow_right (by decide) (by omega)
  have h2 : (2 : Nat) ^ 15 = 32768 := by norm_num
  omega

theorem toUnsigned_of_range {w : Nat} {x : Int} (h0 : 0 ≤ x) (h1 : x < wordMod w) :
    toUnsigned w x = x :=
  Int.emod_eq_of_lt h0 h1

theorem toUnsigned_sub_left (w : Nat) (a b : Int) :
    toUnsigned w (toUnsigned w a - b) = toUnsigned w (a - b) := by
  unfold toUnsigned
  rw [Int.sub_emod, Int.emod_emod, ← Int.sub_emod]

theorem toSigned_toUnsigned (w : Nat) (x : Int) : toSigned w (toUnsigned w x) = toSigned w x := by
  unfold toSigned toUnsigned
  rw [Int.emod_emod]

theorem toSigned_of_representable {w : Nat} (hw : 1 ≤ w) {x : Int} (h : Representable w x) :
    toSigned w x = x := by
  obtain ⟨h1, h2⟩ := h
  have hM := wordMod_eq_two_mul_halfMod hw
  have hpos := wordMod_pos w
  unfold toSigned toUnsigned
  by_cases hx : 0 ≤ x
  · have e : x % wordMod w = x := Int.emod_eq_of_lt hx (by omega)
    rw [e, if_pos h2]
  · have e : x % wordMod w = x + wordMod w := by
      rw [← Int.add_emod_self]
      exact Int.emod_eq_of_lt (by omega) (by omega)
    rw [e, if_neg (by omega)]
    omega

theorem num_bits_eq_exact {w : Nat} (hw : 1 ≤ w) (nmea_payload : List Char) (pad : Nat)
    (h : Representable w (6 * (strlen nmea_payload : Int) - pad)) :
    num_bits w nmea_payload pad = 6 * (strlen nmea_payload : Int) - pad := by
  unfold num_bits
  rw [toUnsigned_sub_left, toSigned_toUnsigned]
  have e : (strlen nmea_payload : Int) * 6 - pad = 6 * (strlen nmea_payload : Int) - pad := by ring
  rw [e]
  exact toSigned_of_representable hw h

theorem num_char_eq_div (nb : Int) (h : 40 ≤ nb) : num_char nb = (nb - 40) / 6 := by
  unfold num_char
  exact Int.tdiv_eq_ediv (by omega) (by decide)

/-! ## The paths of the constructor body -/

theorem run_initialized (env : Env) (e : Ais14) (p : List Char) (pad : Nat)
    (hs : e.status ≠ AIS_UNINITIALIZED) :
    Ais14.Ais14 env e p pad = ⟨.returned e, []⟩ := by
  unfold Ais14.Ais14
  rw [if_pos hs]

theorem run_assert_fails (env : Env) (e : Ais14) (p : List Char) (pad : Nat)
    (hs : e.status = AIS_UNINITIALIZED) (hd : env.NDEBUG = false) (hid : e.message_id ≠ 14) :
    Ais14.Ais14 env e p pad = ⟨.assertion_failed, [.assert_message_id false]⟩ := by
  unfold Ais14.Ais14
  rw [if_neg (by simp [hs]), if_pos ⟨hd, hid⟩]

theorem run_bad_bit_count (env : Env) (e : Ais14) (p : List Char) (pad : Nat)
    (hs : e.status = AIS_UNINITIALIZED) (ha : env.NDEBUG = true ∨ e.message_id = 14)
    (hb : num_bits env.plat.size_bits p pad < 46 ∨ num_bits env.plat.size_bits p pad > 1008) :
    Ais14.Ais14 env e p pad =
      ⟨.returned { e with status := AIS_ERR_BAD_BIT_COUNT }, assert_trace env⟩ := by
  unfold Ais14.Ais14
  rw [if_neg (by simp [hs]), if_neg (by rcases ha with h | h <;> simp [h])]
  simp only [if_pos hb]

theorem run_converter_error (env : Env) (e : Ais14) (p : List Char) (pad : Nat)
    (hs : e.status = AIS_UNINITIALIZED) (ha : env.NDEBUG = true ∨ e.message_id = 14)
    (h1 : 46 ≤ num_bits env.plat.size_bits p pad) (h2 : num_bits env.plat.size_bits p pad ≤ 1008)
    (hr : (env.aivdm_to_bits bitset_zero p).1 ≠ AIS_OK) :
    Ais14.Ais14 env e p pad =
      ⟨.returned { e with status := (env.aivdm_to_bits bitset_zero p).1 },
       assert_trace env ++ [.call_aivdm_to_bits p]⟩ := by
  unfold Ais14.Ais14
  rw [if_neg (by simp [hs]), if_neg (by rcases ha with h | h <;> simp [h])]
  have hb : ¬ (num_bits env.plat.size_bits p pad < 46 ∨ num_bits env.plat.size_bits p pad > 1008) := by
    omega
  simp only [if_neg hb, if_pos hr]

theorem toSigned_int_of_small (P : Platform) {x : Int} (h1 : -32768 ≤ x) (h2 : x < 32768) :
    toSigned P.int_bits x = x :=
  toSigned_of_representable (le_trans (by decide) P.int_ok)
    ⟨by have := halfMod_ge P.int_ok; omega, by have := halfMod_ge P.int_ok; omega⟩

theorem toUnsigned_size_of_small (P : Platform) {x : Int} (h1 : 0 ≤ x) (h2 : x < 32768) :
    toUnsigned P.size_bits x = x := by
  apply toUnsigned_of_range h1
  have h := halfMod_ge P.size_ok
  have h3 := wordMod_eq_two_mul_halfMod (le_trans (by decide) P.size_ok : 1 ≤ P.size_bits)
  omega

theorem run_ok (env : Env) (e : Ais14) (p : List Char) (pad : Nat)
    (hs : e.status = AIS_UNINITIALIZED) (ha : env.NDEBUG = true ∨ e.message_id = 14)
    (h1 : 46 ≤ num_bits env.plat.size_bits p pad) (h2 : num_bits env.plat.size_bits p pad ≤ 1008)
    (hr : (env.aivdm_to_bits bitset_zero p).1 = AIS_OK) :
    Ais14.Ais14 env e p pad =
      ⟨.returned { e with
          spare := env.ubits (env.aivdm_to_bits bitset_zero p).2 38 2,
          text := env.ais_str (env.aivdm_to_bits bitset_zero p).2 40
            (6 * ((num_bits env.plat.size_bits p pad - 40) / 6)).toNat,
          expected_num_spare_bits :=
            num_bits env.plat.size_bits p pad - 40
              - 60 * ((num_bits env.plat.size_bits p pad - 40) / 6),
          status := AIS_OK },
       assert_trace env ++ [.call_aivdm_to_bits p, .call_ubits 38 2,
         .call_ais_str 40 (6 * ((num_bits env.plat.size_bits p pad - 40) / 6)).toNat]⟩ := by
  unfold Ais14.Ais14
  rw [if_neg (by simp [hs]), if_neg (by rcases ha with h | h <;> simp [h])]
  have hb : ¬ (num_bits env.plat.size_bits p pad < 46 ∨ num_bits env.plat.size_bits p pad > 1008) := by
    omega
  have hr2 : ¬ ((env.aivdm_to_bits bitset_zero p).1 ≠ AIS_OK) := by simp [hr]
  simp only [if_neg hb, if_neg hr2]
  have hc := num_char_eq_div (num_bits env.plat.size_bits p pad) (by omega)
  have e1 : toUnsigned env.plat.size_bits (num_char (num_bits env.plat.size_bits p pad) * 6)
      = 6 * ((num_bits env.plat.size_bits p pad - 40) / 6) := by
    rw [hc, toUnsigned_size_of_small env.plat (by omega) (by omega)]; ring
  have e2 : toSigned env.plat.int_bits (num_bits env.plat.size_bits p pad - 40
        - num_char (num_bits env.plat.size_bits p pad) * 60)
      = num_bits env.plat.size_bits p pad - 40
          - 60 * ((num_bits env.plat.size_bits p pad - 40) / 6) := by
    rw [hc, toSigned_int_of_small env.plat (by omega) (by omega)]; ring
  rw [e1, e2]
  simp

theorem representable_of_small (P : Platform) (x : Int) (h1 : -32768 ≤ x) (h2 : x < 32768) :
    Representable P.size_bits x :=
  ⟨by have := halfMod_ge P.size_ok; omega, by have := halfMod_ge P.size_ok; omega⟩

theorem size_bits_pos (P : Platform) : 1 ≤ P.size_bits := le_trans (by decide) P.size_ok

theorem num_bits_eq_spec (env : Env) (p : List Char) (pad : Nat)
    (h : Representable env.plat.size_bits (spec_num_bits p pad)) :
    num_bits env.plat.size_bits p pad = spec_num_bits p pad :=
  num_bits_eq_exact (size_bits_pos env.plat) p pad h

theorem call_not_mem_assert_trace (env : Env) (q : List Char) :
    Event.call_aivdm_to_bits q ∉ assert_trace env := by
  unfold assert_trace
  cases env.NDEBUG <;> simp

theorem final_status_bad (env : Env) (e : Ais14) (p : List Char) (pad : Nat)
    (hs : e.status = AIS_UNINITIALIZED) (ha : env.NDEBUG = true ∨ e.message_id = 14)
    (hb : num_bits env.plat.size_bits p pad < 46 ∨ num_bits env.plat.size_bits p pad > 1008) :
    (Ais14.Ais14 env e p pad).final_status = some AIS_ERR_BAD_BIT_COUNT := by
  rw [run_bad_bit_count env e p pad hs ha hb]
  rfl

theorem final_status_converter_error (env : Env) (e : Ais14) (p : List Char) (pad : Nat)
    (hs : e.status = AIS_UNINITIALIZED) (ha : env.NDEBUG = true ∨ e.message_id = 14)
    (h1 : 46 ≤ num_bits env.plat.size_bits p pad) (h2 : num_bits env.plat.size_bits p pad ≤ 1008)
    (hr : (env.aivdm_to_bits bitset_zero p).1 ≠ AIS_OK) :
    (Ais14.Ais14 env e p pad).final_status = some (env.aivdm_to_bits bitset_zero p).1 := by
  rw [run_converter_error env e p pad hs ha h1 h2 hr]
  rfl

theorem final_status_ok (env : Env) (e : Ais14) (p : List Char) (pad : Nat)
    (hs : e.status = AIS_UNINITIALIZED) (ha : env.NDEBUG = true ∨ e.message_id = 14)
    (h1 : 46 ≤ num_bits env.plat.size_bits p pad) (h2 : num_bits env.plat.size_bits p pad ≤ 1008)
    (hr : (env.aivdm_to_bits bitset_zero p).1 = AIS_OK) :
    (Ais14.Ais14 env e p pad).final_status = some AIS_OK := by
  rw [run_ok env e p pad hs ha h1 h2 hr]
  rfl

/-- The status decides the path: entered with `AIS_UNINITIALIZED` and a passing assertion,
the constructor ends with `AIS_OK` exactly when the machine value `num_bits` of line 12
passes the length check and the converter returns `AIS_OK`. -/
theorem final_status_ok_iff (env : Env) (e : Ais14) (p : List Char) (pad : Nat)
    (hs : e.status = AIS_UNINITIALIZED) (ha : env.NDEBUG = true ∨ e.message_id = 14) :
    (Ais14.Ais14 env e p pad).final_status = some AIS_OK ↔
      (46 ≤ num_bits env.plat.size_bits p pad ∧ num_bits env.plat.size_bits p pad ≤ 1008 ∧
        (env.aivdm_to_bits bitset_zero p).1 = AIS_OK) := by
  by_cases hb : num_bits env.plat.size_bits p pad < 46 ∨ num_bits env.plat.size_bits p pad > 1008
  · rw [final_status_bad env e p pad hs ha hb]
    constructor
    · intro h; cases h
    · intro h; omega
  · have h1 : 46 ≤ num_bits env.plat.size_bits p pad := by omega
    have h2 : num_bits env.plat.size_bits p pad ≤ 1008 := by omega
    by_cases hr : (env.aivdm_to_bits bitset_zero p).1 = AIS_OK
    · rw [final_status_ok env e p pad hs ha h1 h2 hr]
      exact ⟨fun _ => ⟨h1, h2, hr⟩, fun _ => rfl⟩
    · rw [final_status_converter_error env e p pad hs ha h1 h2 hr]
      constructor
      · intro h; exact absurd (Option.some.inj h) hr
      · intro h; exact absurd h.2.2 hr

/-- On every path that ends with `AIS_OK`, line 29 stores
`num_bits - 40 - 60 * num_char`, which is at most `-49`: never a remainder in `0 .. 5`. -/
theorem expected_num_spare_bits_negative (env : Env) (e : Ais14) (p : List Char) (pad : Nat)
    (hs : e.status = AIS_UNINITIALIZED) (ha : env.NDEBUG = true ∨ e.message_id = 14)
    (hok : (Ais14.Ais14 env e p pad).final_status = some AIS_OK) :
    ∃ m, (Ais14.Ais14 env e p pad).outcome = .returned m ∧
      m.expected_num_spare_bits = num_bits env.plat.size_bits p pad - 40
        - 60 * ((num_bits env.plat.size_bits p pad - 40) / 6) ∧
      m.expected_num_spare_bits ≤ -49 := by
  obtain ⟨h1, h2, hr⟩ := (final_status_ok_iff env e p pad hs ha).1 hok
  rw [run_ok env e p pad hs ha h1 h2 hr]
  exact ⟨_, rfl, rfl, by simp only; omega⟩

/-! ## The validation of `I` in the gateway -/

theorem le_foldl_max_iff (I : List Nat) (m n : Nat) :
    n ≤ I.foldl (fun m x => if m < x then x else m) m ↔ n ≤ m ∨ ∃ x ∈ I, n ≤ x := by
  induction I generalizing m with
  | nil => simp
  | cons a t ih =>
    rw [List.foldl_cons, ih]
    by_cases h : m < a
    · simp only [if_pos h, List.mem_cons, exists_eq_or_imp]
      constructor
      · rintro (h1 | h1)
        · exact Or.inr (Or.inl h1)
        · exact Or.inr (Or.inr h1)
      · rintro (h1 | h1 | h1)
        · exact Or.inl (by omega)
        · exact Or.inl h1
        · exact Or.inr h1
    · simp only [if_neg h, List.mem_cons, exists_eq_or_imp]
      constructor
      · rintro (h1 | h1)
        · exact Or.inl h1
        · exact Or.inr (Or.inr h1)
      · rintro (h1 | h1 | h1)
        · exact Or.inl h1
        · exact Or.inl (by omega)
        · exact Or.inr h1

theorem le_maxEl_iff (I : List Nat) {n : Nat} (hn : 1 ≤ n) :
    n ≤ maxEl I ↔ ∃ x ∈ I, n ≤ x := by
  unfold maxEl
  rw [le_foldl_max_iff]
  constructor
  · rintro (h | h)
    · omega
    · exact h
  · exact Or.inr

/-- The condition of line 78, `maxEl>n-1||r>n||r<1` with `n-1` computed modulo `2 ^ w`,
holds exactly when `r < 1`, or `r > n`, or some element of `I` is at least `n`. -/
theorem invalid_condition_iff (w : Nat) (I : List Nat) (n : Nat) (hn : (n : Int) < wordMod w) :
    ((maxEl I : Int) > toUnsigned w ((n : Int) - 1) ∨ I.length > n ∨ I.length < 1) ↔
      (I.length < 1 ∨ I.length > n ∨ ∃ x ∈ I, n ≤ x) := by
  rcases Nat.eq_zero_or_pos n with h0 | hpos
  · subst h0
    have : I.length > 0 ∨ I.length < 1 := by omega
    constructor
    · intro _; rcases this with h | h
      · exact Or.inr (Or.inl h)
      · exact Or.inl h
    · intro _; rcases this with h | h
      · exact Or.inr (Or.inl h)
      · exact Or.inr (Or.inr h)
  · have e : toUnsigned w ((n : Int) - 1) = (n : Int) - 1 :=
      toUnsigned_of_range (by omega) (by omega)
    rw [e]
    have hm := le_maxEl_iff I hpos
    constructor
    · rintro (h | h | h)
      · exact Or.inr (Or.inr (hm.1 (by omega)))
      · exact Or.inr (Or.inl h)
      · exact Or.inl h
    · rintro (h | h | h)
      · exact Or.inr (Or.inr h)
      · exact Or.inr (Or.inl h)
      · have := hm.2 h
        exact Or.inl (by omega)

/-! ## The claims -/

/-- C1 (amended): entered with status `AIS_UNINITIALIZED` and `message_id == 14`, for every
payload and pad whose exact difference `6 * strlen(payload) - pad` is representable in
`ptrdiff_t`: if that difference is below 46 or above 1008, the constructor returns with
status `AIS_ERR_BAD_BIT_COUNT`, all other members keep their entry values, and the converter
`aivdm_to_bits` is not invoked. -/
theorem C1_bad_bit_count_of_representable (env : Env) (e : Ais14) (p : List Char) (pad : Nat)
    (hs : e.status = AIS_UNINITIALIZED) (hid : e.message_id = 14)
    (hrep : Representable env.plat.size_bits (spec_num_bits p pad))
    (hbad : spec_num_bits p pad < 46 ∨ spec_num_bits p pad > 1008) :
    Ais14.Ais14 env e p pad =
        ⟨.returned { e with status := AIS_ERR_BAD_BIT_COUNT }, assert_trace env⟩ ∧
      ∀ q, Event.call_aivdm_to_bits q ∉ (Ais14.Ais14 env e p pad).trace := by
  have hrun := run_bad_bit_count env e p pad hs (Or.inr hid)
    (by rw [num_bits_eq_spec env p pad hrep]; exact hbad)
  refine ⟨hrun, fun q => ?_⟩
  rw [hrun]
  exact call_not_mem_assert_trace env q

/-- C1 (witness): 45 bits (8 characters, pad 3) and 1009 bits (169 characters, pad 5) are
both rejected with `AIS_ERR_BAD_BIT_COUNT`. -/
theorem C1_witness_45_and_1009 :
    (spec_num_bits payload8 3 = 45 ∧
      Ais14.Ais14 sampleEnv entry14 payload8 3 =
        ⟨.returned { entry14 with status := AIS_ERR_BAD_BIT_COUNT }, assert_trace sampleEnv⟩) ∧
    (spec_num_bits payload169 5 = 1009 ∧
      Ais14.Ais14 sampleEnv entry14 payload169 5 =
        ⟨.returned { entry14 with status := AIS_ERR_BAD_BIT_COUNT }, assert_trace sampleEnv⟩) :=
  ⟨⟨by decide, (C1_bad_bit_count_of_representable sampleEnv entry14 payload8 3 rfl rfl
      (by decide) (by decide)).1⟩,
   ⟨by decide, (C1_bad_bit_count_of_representable sampleEnv entry14 payload169 5 rfl rfl
      (by decide) (by decide)).1⟩⟩

/-- C1 (counterexample): on the 64-bit target, for an 8-character payload and
`pad = SIZE_MAX` the exact difference `48 - (2 ^ 64 - 1)` is below 46, yet line 12 computes
`num_bits = 49`, the length check passes, the converter is invoked and the constructor ends
with status `AIS_OK`. -/
theorem C1_counterexample_wrapped_pad :
    entry14.status = AIS_UNINITIALIZED ∧ entry14.message_id = 14 ∧
    SIZE_MAX64 < 2 ^ sampleEnv.plat.size_bits ∧
    spec_num_bits payload8 SIZE_MAX64 < 46 ∧
    num_bits sampleEnv.plat.size_bits payload8 SIZE_MAX64 = 49 ∧
    Ais14.Ais14 sampleEnv entry14 payload8 SIZE_MAX64 =
      ⟨.returned { entry14 with spare := 0, text := "R", expected_num_spare_bits := -51,
                                status := AIS_OK },
       [.assert_message_id true, .call_aivdm_to_bits payload8, .call_ubits 38 2,
        .call_ais_str 40 6]⟩ := by
  decide

/-- C2 (amended): entered with status `AIS_UNINITIALIZED` and `message_id == 14`, for every
payload and pad whose exact difference `6 * strlen(payload) - pad` is representable in
`ptrdiff_t`, the final status is `AIS_OK` if and only if that difference lies in
`[46, 1008]`, both bounds included, and `aivdm_to_bits` returns `AIS_OK` for the payload. -/
theorem C2_status_ok_iff_of_representable (env : Env) (e : Ais14) (p : List Char) (pad : Nat)
    (hs : e.status = AIS_UNINITIALIZED) (hid : e.message_id = 14)
    (hrep : Representable env.plat.size_bits (spec_num_bits p pad)) :
    (Ais14.Ais14 env e p pad).final_status = some AIS_OK ↔
      (46 ≤ spec_num_bits p pad ∧ spec_num_bits p pad ≤ 1008 ∧
        (env.aivdm_to_bits bitset_zero p).1 = AIS_OK) := by
  rw [← num_bits_eq_spec env p pad hrep]
  exact final_status_ok_iff env e p pad hs (Or.inr hid)

/-- C2 (witness): both bounds are accepted, 46 bits (8 characters, pad 2) and 1008 bits
(168 characters, pad 0). -/
theorem C2_witness_bounds_inclusive :
    (Ais14.Ais14 sampleEnv entry14 payload8 2).final_status = some AIS_OK ∧
    (Ais14.Ais14 sampleEnv entry14 payload168 0).final_status = some AIS_OK :=
  ⟨(C2_status_ok_iff_of_representable sampleEnv entry14 payload8 2 rfl rfl (by decide)).2
      (by decide),
   (C2_status_ok_iff_of_representable sampleEnv entry14 payload168 0 rfl rfl (by decide)).2
      (by decide)⟩

/-- C2 (counterexample): on the 64-bit target, for a 23-character payload and
`pad = 2 ^ 64 - 2` the final status is `AIS_OK` although the exact difference
`138 - (2 ^ 64 - 2)` is not in `[46, 1008]`. -/
theorem C2_counterexample_wrapped_pad :
    entry14.status = AIS_UNINITIALIZED ∧ entry14.message_id = 14 ∧
    SIZE_MAX64 - 1 < 2 ^ sampleEnv.plat.size_bits ∧
    (Ais14.Ais14 sampleEnv entry14 payload23 (SIZE_MAX64 - 1)).final_status = some AIS_OK ∧
    ¬ (46 ≤ spec_num_bits payload23 (SIZE_MAX64 - 1) ∧
        spec_num_bits payload23 (SIZE_MAX64 - 1) ≤ 1008 ∧
        (sampleEnv.aivdm_to_bits bitset_zero payload23).1 = AIS_OK) := by
  decide

/-- C3: entered with status `AIS_UNINITIALIZED` and `message_id == 14`, for every payload and
pad with `46 ≤ 6 * strlen(payload) - pad ≤ 1008`: if `aivdm_to_bits` returns a status `r`
other than `AIS_OK`, the constructor returns with status exactly `r`, `spare`, `text` and
`expected_num_spare_bits` keep their entry values, no bit accessor is called, and the
reported status differs from `AIS_ERR_BAD_BIT_COUNT` whenever `r` does. -/
theorem C3_converter_status_propagated (env : Env) (e : Ais14) (p : List Char) (pad : Nat)
    (hs : e.status = AIS_UNINITIALIZED) (hid : e.message_id = 14)
    (h1 : 46 ≤ spec_num_bits p pad) (h2 : spec_num_bits p pad ≤ 1008)
    (hr : (env.aivdm_to_bits bitset_zero p).1 ≠ AIS_OK) :
    Ais14.Ais14 env e p pad =
        ⟨.returned { e with status := (env.aivdm_to_bits bitset_zero p).1 },
         assert_trace env ++ [.call_aivdm_to_bits p]⟩ ∧
      (Ais14.Ais14 env e p pad).final_status = some (env.aivdm_to_bits bitset_zero p).1 ∧
      ((env.aivdm_to_bits bitset_zero p).1 ≠ AIS_ERR_BAD_BIT_COUNT →
        (Ais14.Ais14 env e p pad).final_status ≠ some AIS_ERR_BAD_BIT_COUNT) := by
  have hrep := representable_of_small env.plat (spec_num_bits p pad) (by omega) (by omega)
  have hn := num_bits_eq_spec env p pad hrep
  have hrun := run_converter_error env e p pad hs (Or.inr hid) (by omega) (by omega) hr
  have hf := final_status_converter_error env e p pad hs (Or.inr hid) (by omega) (by omega) hr
  refine ⟨hrun, hf, fun hne => ?_⟩
  rw [hf]
  exact fun h => hne (Option.some.inj h)

/-- C3 (witness): a payload whose last character `Z` is outside the armoring alphabet. -/
theorem C3_witness_bad_character :
    Ais14.Ais14 sampleEnv entry14 payload8_bad 0 =
      ⟨.returned { entry14 with status := AIS_ERR_OTHER 1 },
       [.assert_message_id true, .call_aivdm_to_bits payload8_bad]⟩ :=
  (C3_converter_status_propagated sampleEnv entry14 payload8_bad 0 rfl rfl
    (by decide) (by decide) (by decide)).1

/-- C4 (code at the failing input): for the 8-character payload with pad 2, `num_bits` is 46
and `num_char` is 1, so `num_bits - 40 - 6 * num_char = (46 - 40) mod 6 = 0`; line 29
subtracts `num_char*60` and stores `-54` in `expected_num_spare_bits`. -/
theorem C4_expected_num_spare_bits_at_46 :
    spec_num_bits payload8 2 = 46 ∧ num_char 46 = 1 ∧
    ((46 : Int) - 40 - 6 * num_char 46 = 0 ∧ ((46 : Int) - 40) % 6 = 0) ∧
    Ais14.Ais14 sampleEnv entry14 payload8 2 =
      ⟨.returned { entry14 with spare := 0, text := "R", expected_num_spare_bits := -54,
                                status := AIS_OK },
       [.assert_message_id true, .call_aivdm_to_bits payload8, .call_ubits 38 2,
        .call_ais_str 40 6]⟩ := by
  decide

/-- C5 (amended): for every payload and pad whose exact difference
`d = 6 * strlen(payload) - pad` is representable in `ptrdiff_t` and on which the constructor
(entered with `AIS_UNINITIALIZED`, `message_id == 14`) ends with `AIS_OK`, with `bs` the
buffer `aivdm_to_bits` leaves: `spare = ubits(bs, 38, 2)`, `text = ais_str(bs, 40, 6 * n)`
with `n = num_char = floor((d - 40) / 6)`, `1 ≤ n ≤ 161`, these two are the only accessor
calls, and for `d = 46` exactly 6 bits (one character) are requested. -/
theorem C5_fields_of_ok (env : Env) (e : Ais14) (p : List Char) (pad : Nat)
    (hs : e.status = AIS_UNINITIALIZED) (hid : e.message_id = 14)
    (hrep : Representable env.plat.size_bits (spec_num_bits p pad))
    (hok : (Ais14.Ais14 env e p pad).final_status = some AIS_OK) :
    ∃ m, (Ais14.Ais14 env e p pad).outcome = .returned m ∧
      m.spare = env.ubits (env.aivdm_to_bits bitset_zero p).2 38 2 ∧
      m.text = env.ais_str (env.aivdm_to_bits bitset_zero p).2 40
        (6 * ((spec_num_bits p pad - 40) / 6)).toNat ∧
      num_char (spec_num_bits p pad) = (spec_num_bits p pad - 40) / 6 ∧
      1 ≤ (spec_num_bits p pad - 40) / 6 ∧ (spec_num_bits p pad - 40) / 6 ≤ 161 ∧
      (Ais14.Ais14 env e p pad).trace = assert_trace env ++
        [.call_aivdm_to_bits p, .call_ubits 38 2,
         .call_ais_str 40 (6 * ((spec_num_bits p pad - 40) / 6)).toNat] ∧
      (spec_num_bits p pad = 46 → (6 * ((spec_num_bits p pad - 40) / 6)).toNat = 6) := by
  obtain ⟨h1, h2, hr⟩ := (final_status_ok_iff env e p pad hs (Or.inr hid)).1 hok
  rw [run_ok env e p pad hs (Or.inr hid) h1 h2 hr]
  rw [num_bits_eq_spec env p pad hrep] at h1 h2 ⊢
  refine ⟨_, rfl, rfl, rfl, num_char_eq_div _ (by omega), by omega, by omega, rfl, fun h => ?_⟩
  rw [h]
  decide

/-- C5 (witness): the minimum length, 46 bits (8 characters, pad 2): one character is
requested, bits 40 to 45. -/
theorem C5_witness_minimum_length :
    ∃ m, (Ais14.Ais14 sampleEnv entry14 payload8 2).outcome = .returned m ∧
      m.spare = sampleEnv.ubits (sampleEnv.aivdm_to_bits bitset_zero payload8).2 38 2 ∧
      m.text = sampleEnv.ais_str (sampleEnv.aivdm_to_bits bitset_zero payload8).2 40
        (6 * ((spec_num_bits payload8 2 - 40) / 6)).toNat ∧
      num_char (spec_num_bits payload8 2) = (spec_num_bits payload8 2 - 40) / 6 ∧
      1 ≤ (spec_num_bits payload8 2 - 40) / 6 ∧ (spec_num_bits payload8 2 - 40) / 6 ≤ 161 ∧
      (Ais14.Ais14 sampleEnv entry14 payload8 2).trace = assert_trace sampleEnv ++
        [.call_aivdm_to_bits payload8, .call_ubits 38 2,
         .call_ais_str 40 (6 * ((spec_num_bits payload8 2 - 40) / 6)).toNat] ∧
      (spec_num_bits payload8 2 = 46 → (6 * ((spec_num_bits payload8 2 - 40) / 6)).toNat = 6) :=
  C5_fields_of_ok sampleEnv entry14 payload8 2 rfl rfl (by decide) (by decide)

/-- C5 (counterexample): on the 64-bit target, for the 23-character payload and
`pad = SIZE_MAX` the constructor ends with `AIS_OK` and requests `ais_str(bs, 40, 96)`,
16 characters, while `floor((d - 40) / 6)` for the exact difference `d = 138 - (2 ^ 64 - 1)`
is negative: neither at least 1 nor the character count requested. -/
theorem C5_counterexample_wrapped_pad :
    entry14.status = AIS_UNINITIALIZED ∧ entry14.message_id = 14 ∧
    SIZE_MAX64 < 2 ^ sampleEnv.plat.size_bits ∧
    (Ais14.Ais14 sampleEnv entry14 payload23 SIZE_MAX64).final_status = some AIS_OK ∧
    (Ais14.Ais14 sampleEnv entry14 payload23 SIZE_MAX64).trace =
      [.assert_message_id true, .call_aivdm_to_bits payload23, .call_ubits 38 2,
       .call_ais_str 40 96] ∧
    ¬ (1 ≤ (spec_num_bits payload23 SIZE_MAX64 - 40) / 6) ∧
    (6 * ((spec_num_bits payload23 SIZE_MAX64 - 40) / 6)).toNat ≠ 96 := by
  decide

/-- C6: for every payload and pad with `pad ≤ 5` and `46 ≤ 6 * strlen(payload) - pad ≤ 1008`:
the converter's output length `6 * strlen(payload)` is at most the buffer capacity 1008,
line 12 computes exactly that difference, `38 + 2 ≤ num_bits`,
`40 + 6 * floor((num_bits - 40) / 6) ≤ num_bits`, and every helper call the constructor makes
stays inside the buffer and inside the first `num_bits` bits. -/
theorem C6_length_check_guards_access (env : Env) (e : Ais14) (p : List Char) (pad : Nat)
    (hpad : pad ≤ 5) (h1 : 46 ≤ spec_num_bits p pad) (h2 : spec_num_bits p pad ≤ 1008) :
    6 * strlen p ≤ bitset_capacity ∧
    num_bits env.plat.size_bits p pad = spec_num_bits p pad ∧
    38 + 2 ≤ spec_num_bits p pad ∧
    40 + 6 * ((spec_num_bits p pad - 40) / 6) ≤ spec_num_bits p pad ∧
    ∀ ev ∈ (Ais14.Ais14 env e p pad).trace, ev.in_bounds (spec_num_bits p pad) := by
  have hrep := representable_of_small env.plat (spec_num_bits p pad) (by omega) (by omega)
  have hn := num_bits_eq_spec env p pad hrep
  have hcap : 6 * strlen p ≤ bitset_capacity := by
    unfold spec_num_bits at h2
    unfold bitset_capacity
    omega
  refine ⟨hcap, hn, by omega, by omega, ?_⟩
  by_cases hs : e.status = AIS_UNINITIALIZED
  · by_cases ha : env.NDEBUG = true ∨ e.message_id = 14
    · have hat : ∀ ev ∈ assert_trace env, ev.in_bounds (spec_num_bits p pad) := by
        intro ev hev
        unfold assert_trace at hev
        cases hd : env.NDEBUG <;> simp [hd] at hev
        subst hev
        trivial
      by_cases hr : (env.aivdm_to_bits bitset_zero p).1 = AIS_OK
      · rw [run_ok env e p pad hs ha (by omega) (by omega) hr, hn]
        intro ev hev
        simp only [List.mem_append, List.mem_cons, List.mem_singleton, List.not_mem_nil,
          or_false] at hev
        rcases hev with hev | hev | hev | hev
        · exact hat ev hev
        · subst hev; exact hcap
        · subst hev
          refine ⟨?_, by unfold bitset_capacity; omega⟩
          push_cast; omega
        · subst hev
          have hc : 40 + (6 * ((spec_num_bits p pad - 40) / 6)).toNat ≤ 1008 := by omega
          refine ⟨?_, hc⟩
          push_cast
          omega
      · rw [run_converter_error env e p pad hs ha (by omega) (by omega) hr]
        intro ev hev
        simp only [List.mem_append, List.mem_singleton] at hev
        rcases hev with hev | hev
        · exact hat ev hev
        · subst hev; exact hcap
    · have hd : env.NDEBUG = false := by
        cases h : env.NDEBUG
        · rfl
        · exact absurd (Or.inl h) ha
      rw [run_assert_fails env e p pad hs hd (fun h => ha (Or.inr h))]
      intro ev hev
      simp only [List.mem_singleton] at hev
      subst hev
      trivial
  · rw [run_initialized env e p pad hs]
    intro ev hev
    simp at hev

/-- C6 (witness): the 23-character payload with pad 2 (136 bits). -/
theorem C6_witness_136_bits :
    6 * strlen payload23 ≤ bitset_capacity ∧
    num_bits sampleEnv.plat.size_bits payload23 2 = spec_num_bits payload23 2 ∧
    38 + 2 ≤ spec_num_bits payload23 2 ∧
    40 + 6 * ((spec_num_bits payload23 2 - 40) / 6) ≤ spec_num_bits payload23 2 ∧
    ∀ ev ∈ (Ais14.Ais14 sampleEnv entry14 payload23 2).trace,
      ev.in_bounds (spec_num_bits payload23 2) :=
  C6_length_check_guards_access sampleEnv entry14 payload23 2 (by decide) (by decide)
    (by decide)

/-- C7 (amended): the assertion of line 10 comes before the length check of lines 12 to 16.
Entered with status `AIS_UNINITIALIZED`, for every payload and pad whose exact difference
`6 * strlen(payload) - pad` is representable in `ptrdiff_t` and lies outside `[46, 1008]`:
when `message_id == 14`, or when `assert` is compiled out, the constructor returns with
status `AIS_ERR_BAD_BIT_COUNT`; when `message_id != 14` and `assert` is active, the
assertion fails and nothing else is evaluated. -/
theorem C7_assertion_precedes_length_check (env : Env) (e : Ais14) (p : List Char) (pad : Nat)
    (hs : e.status = AIS_UNINITIALIZED)
    (hrep : Representable env.plat.size_bits (spec_num_bits p pad))
    (hbad : spec_num_bits p pad < 46 ∨ spec_num_bits p pad > 1008) :
    (env.NDEBUG = true ∨ e.message_id = 14 →
      Ais14.Ais14 env e p pad =
        ⟨.returned { e with status := AIS_ERR_BAD_BIT_COUNT }, assert_trace env⟩) ∧
    (env.NDEBUG = false ∧ e.message_id ≠ 14 →
      Ais14.Ais14 env e p pad = ⟨.assertion_failed, [.assert_message_id false]⟩) := by
  constructor
  · intro ha
    exact run_bad_bit_count env e p pad hs ha
      (by rw [num_bits_eq_spec env p pad hrep]; exact hbad)
  · intro h
    exact run_assert_fails env e p pad hs h.1 h.2

/-- C7 (witness): 42 bits (7 characters, pad 0) with `message_id == 14`. -/
theorem C7_witness_type_14 :
    Ais14.Ais14 sampleEnv entry14 payload7 0 =
      ⟨.returned { entry14 with status := AIS_ERR_BAD_BIT_COUNT }, assert_trace sampleEnv⟩ :=
  (C7_assertion_precedes_length_check sampleEnv entry14 payload7 0 rfl (by decide)
    (by decide)).1 (Or.inr rfl)

/-- C7 (counterexample): 42 bits (7 characters, pad 0) entered with `AIS_UNINITIALIZED` and
`message_id == 5`: the bit count is bad, and the constructor does not return with
`AIS_ERR_BAD_BIT_COUNT`, the assertion `message_id == 14` fails. -/
theorem C7_counterexample_assertion_fails :
    entry5.status = AIS_UNINITIALIZED ∧
    spec_num_bits payload7 0 < 46 ∧
    Ais14.Ais14 sampleEnv entry5 payload7 0 =
      ⟨.assertion_failed, [.assert_message_id false]⟩ ∧
    (Ais14.Ais14 sampleEnv entry5 payload7 0).final_status ≠ some AIS_ERR_BAD_BIT_COUNT := by
  decide

/-- C8: if the base constructor left a status other than `AIS_UNINITIALIZED`, the
constructor body returns the object unchanged, evaluates no assertion and makes no helper
call, for every payload and pad. -/
theorem C8_write_once_status (env : Env) (e : Ais14) (p : List Char) (pad : Nat)
    (hs : e.status ≠ AIS_UNINITIALIZED) :
    (Ais14.Ais14 env e p pad).outcome = .returned e ∧ (Ais14.Ais14 env e p pad).trace = [] := by
  rw [run_initialized env e p pad hs]
  exact ⟨rfl, rfl⟩

/-- C8 (witness): an object the base constructor rejected with `AIS_ERR_BAD_BIT_COUNT`,
with a type id other than 14 and a payload that would pass every check. -/
theorem C8_witness_rejected_by_base :
    (Ais14.Ais14 sampleEnv entry_rejected payload8 2).outcome = .returned entry_rejected ∧
    (Ais14.Ais14 sampleEnv entry_rejected payload8 2).trace = [] :=
  C8_write_once_status sampleEnv entry_rejected payload8 2 (by decide)

/-- C9: a call of the gateway with two inputs and at most one output, `I` of length `r` and
`n` a `w`-bit machine word, is rejected with `The I vector is invalid.` if and only if
`r < 1`, or `r > n`, or some element of `I` is at least `n`; `n - 1` is computed modulo
`2 ^ w`, and the equivalence includes `n = 0`. -/
theorem C9_I_vector_invalid_iff (w : Nat)
    (getNextComboCPP : List Nat → Nat → Nat → Bool × List Nat)
    (nlhs nrhs : Int) (I : List Nat) (n : Nat)
    (hrhs : nrhs = 2) (hlhs : nlhs ≤ 1) (hn : n < 2 ^ w) :
    mexFunction w getNextComboCPP nlhs nrhs I n = .error "The I vector is invalid." ↔
      (I.length < 1 ∨ I.length > n ∨ ∃ x ∈ I, n ≤ x) := by
  have hn2 : (n : Int) < wordMod w := by unfold wordMod; exact_mod_cast hn
  rw [← invalid_condition_iff w I n hn2]
  unfold mexFunction
  rw [if_neg (by omega), if_neg (by omega), if_neg (by omega)]
  by_cases hc : (maxEl I : Int) > toUnsigned w ((n : Int) - 1) ∨ I.length > n ∨ I.length < 1
  · simp only [if_pos hc]
    exact ⟨fun _ => hc, fun _ => trivial⟩
  · simp only [if_neg hc]
    constructor
    · intro h
      split at h <;> cases h
    · intro h
      exact absurd h hc

/-- C9 (witness): `n = 0`, where `n - 1` wraps to `2 ^ 64 - 1`: the call is rejected. -/
theorem C9_witness_n_zero :
    mexFunction 64 sample_getNextComboCPP 1 2 [0, 1, 2] 0 = .error "The I vector is invalid." :=
  (C9_I_vector_invalid_iff 64 sample_getNextComboCPP 1 2 [0, 1, 2] 0 rfl (by decide)
    (by decide)).2 (Or.inr (Or.inl (by decide)))

/-- C10: the constructor does not enforce `pad ≤ 5`.  Entered with `AIS_UNINITIALIZED` and
`message_id == 14`, for every payload of 169 characters and `pad = 6`: line 12 computes
`num_bits = 1008`, the length check passes and `aivdm_to_bits` is invoked on the
`bitset<1008>`, although the payload carries `6 * 169 = 1014` bits, more than the buffer
capacity. -/
theorem C10_pad_six_passes_length_check (env : Env) (e : Ais14) (p : List Char)
    (hs : e.status = AIS_UNINITIALIZED) (hid : e.message_id = 14) (hlen : strlen p = 169) :
    num_bits env.plat.size_bits p 6 = 1008 ∧
    ¬ (num_bits env.plat.size_bits p 6 < 46 ∨ num_bits env.plat.size_bits p 6 > 1008) ∧
    Event.call_aivdm_to_bits p ∈ (Ais14.Ais14 env e p 6).trace ∧
    6 * strlen p = 1014 ∧ bitset_capacity < 6 * strlen p := by
  have hd : spec_num_bits p 6 = 1008 := by
    unfold spec_num_bits
    rw [hlen]
    norm_num
  have hrep := representable_of_small env.plat (spec_num_bits p 6) (by omega) (by omega)
  have hn : num_bits env.plat.size_bits p 6 = 1008 := by
    rw [num_bits_eq_spec env p 6 hrep, hd]
  refine ⟨hn, by omega, ?_, by omega, by unfold bitset_capacity; omega⟩
  by_cases hr : (env.aivdm_to_bits bitset_zero p).1 = AIS_OK
  · rw [run_ok env e p 6 hs (Or.inr hid) (by omega) (by omega) hr]
    simp
  · rw [run_converter_error env e p 6 hs (Or.inr hid) (by omega) (by omega) hr]
    simp

/-- C10 (witness): 169 characters `0` with pad 6. -/
theorem C10_witness_169_characters :
    num_bits sampleEnv.plat.size_bits payload169 6 = 1008 ∧
    ¬ (num_bits sampleEnv.plat.size_bits payload169 6 < 46 ∨
        num_bits sampleEnv.plat.size_bits payload169 6 > 1008) ∧
    Event.call_aivdm_to_bits payload169 ∈ (Ais14.Ais14 sampleEnv entry14 payload169 6).trace ∧
    6 * strlen payload169 = 1014 ∧ bitset_capacity < 6 * strlen payload169 :=
  C10_pad_six_passes_length_check sampleEnv entry14 payload169 rfl rfl (by decide)

end TCL
